import Mathlib

/-!
Verification development for the building-synthesis pipeline of the arnis
repository (`src/element_processing/buildings.rs` and
`src/element_processing/doors.rs`).

The two source files under `src/` are translated definition-by-definition
into Lean.  External collaborators (geometry primitives, ground oracle,
flood fill, color tables, randomness, the world editor) live outside the
two source files; they are either parameterized (fields of `Deps` /
`Ground`) or modelled from the spec, as indicated by each doc comment.
Voxel writes are reified as a list of `SetBlock` records, in the order the
Rust code issues them; entity spawns are reified as `SpawnEntity` records.
-/

/-- Block identifiers used by the two source files.  The full block catalog
of `block_definitions.rs` is not under `src/`; `misc n` stands for the
remaining catalog entries (e.g. the randomized wall/floor/corner
variations). -/
inductive Block where
  | OAK_FENCE
  | OAK_PLANKS
  | STONE_BRICK_SLAB
  | STONE_BLOCK_SLAB
  | STONE_BRICKS
  | SMOOTH_STONE
  | COBBLESTONE
  | COBBLESTONE_WALL
  | LIGHT_GRAY_CONCRETE
  | WHITE_STAINED_GLASS
  | GLOWSTONE
  | SNOW_LAYER
  | STONE
  | GRAY_CONCRETE
  | DARK_OAK_DOOR_LOWER
  | DARK_OAK_DOOR_UPPER
  | misc (n : Nat)
  deriving DecidableEq

export Block (OAK_FENCE OAK_PLANKS STONE_BRICK_SLAB STONE_BLOCK_SLAB STONE_BRICKS SMOOTH_STONE COBBLESTONE COBBLESTONE_WALL LIGHT_GRAY_CONCRETE WHITE_STAINED_GLASS GLOWSTONE SNOW_LAYER STONE GRAY_CONCRETE DARK_OAK_DOOR_LOWER DARK_OAK_DOOR_UPPER)

/-- One call to `WorldEditor::set_block(block, x, y, z, override_a, override_b)`.
The two trailing `Option` arguments are recorded verbatim (the parking
outline passes `Some(&[COBBLESTONE, COBBLESTONE_WALL])`; every other call
site in the two source files passes `None` for both). -/
structure SetBlock where
  block : Block
  x : Int
  y : Int
  z : Int
  opta : Option (List Block)
  optb : Option (List Block)
  deriving DecidableEq

/-- One call to `WorldEditor::spawn_entity(name, x, y, z)`. -/
structure SpawnEntity where
  name : String
  x : Int
  y : Int
  z : Int
  deriving DecidableEq

/-- Projected 2D column, `cartesian::XZPoint`. -/
structure XZPoint where
  x : Int
  z : Int
  deriving DecidableEq

/-- Tag mapping of an OSM element: string keys to string values, exact
case-sensitive match, first entry wins (models the `HashMap` lookups of
`osm_parser`; the source only ever reads single keys). -/
abbrev Tags := List (String × String)

/-- Tag lookup, `element.tags.get(key)`. -/
def tget (t : Tags) (k : String) : Option String :=
  List.lookup k t

/-- `osm_parser::ProcessedNode` (the fields the two source files read:
projected coordinates and, for door nodes, the tag set). -/
structure ProcessedNode where
  x : Int
  z : Int
  tags : Tags

/-- `ProcessedNode::xz()`. -/
def ProcessedNode.xz (n : ProcessedNode) : XZPoint :=
  ⟨n.x, n.z⟩

/-- `osm_parser::ProcessedWay`: ordered boundary nodes plus the shared tag
set. -/
structure ProcessedWay where
  nodes : List ProcessedNode
  tags : Tags

/-- `osm_parser::ProcessedMemberRole`. -/
inductive ProcessedMemberRole where
  | outer
  | inner
  deriving DecidableEq

/-- A member of a `ProcessedRelation`. -/
structure ProcessedMember where
  role : ProcessedMemberRole
  way : ProcessedWay

/-- `osm_parser::ProcessedRelation`: its own tags plus its members. -/
structure ProcessedRelation where
  tags : Tags
  members : List ProcessedMember

/-- The fields of `args::Args` the two source files read.  The `f64` scale
factor is modelled as a rational; the flood-fill timeout is absorbed into
the flood-fill parameter of `Deps`. -/
structure Args where
  scale : ℚ
  winter : Bool

/-- Modelled from the spec: the Ground Oracle (`ground.rs` is not under
`src/`).  `level` is the per-column surface elevation; `min_level` is the
minimum elevation over a collection of columns, or `none` when the oracle
cannot resolve it.  Both are kept abstract as fields, exactly the consumed
interface of §6. -/
structure Ground where
  level : XZPoint → Int
  min_level : List XZPoint → Option Int

/-- RGB triple, `colors::RGBTuple`. -/
abbrev RGBTuple := Nat × Nat × Nat

/-- External collaborators consumed by the building code whose sources are
not under `src/`, parameterized per the spec's interface section (§6):
interior flood fill (timeout already absorbed — any best-effort result is
admitted), color-string parsing, the RGB distance metric, the three
randomly drawn palette variations (`building_*_variations()[rng_index]`),
and the two color maps. -/
structure Deps where
  floodFill : List (Int × Int) → List (Int × Int)
  colorParse : String → Option RGBTuple
  rgbDist : RGBTuple → RGBTuple → Nat
  cornerPick : Block
  wallPick : Block
  floorPick : Block
  wallColorMap : List (RGBTuple × Block)
  floorColorMap : List (RGBTuple × Block)

/-- Value of a list of decimal digit characters. -/
def digitsVal (cs : List Char) : Nat :=
  cs.foldl (fun a c => a * 10 + (c.toNat - 48)) 0

/-- Parse a nonempty all-digit character list. -/
def decNat (cs : List Char) : Option Nat :=
  if !cs.isEmpty && cs.all Char.isDigit then some (digitsVal cs) else none

/-- Rust `str::parse::<i32>()` on the strings the source feeds it: optional
sign followed by decimal digits (i32 overflow is not modelled; no claim
depends on it). -/
def parseI32 (s : String) : Option Int :=
  match s.toList with
  | '+' :: rest => (decNat rest).map Int.ofNat
  | '-' :: rest => (decNat rest).map (fun n => -(n : Int))
  | l => (decNat l).map Int.ofNat

/-- Decimal core of Rust `str::parse::<f64>()`: digits with at most one
dot.  Modelled exactly on the decimal forms (exponents/infinities are not
produced by the tag values any claim touches); the value is kept exact as
a rational. -/
def parseRatCore (cs : List Char) : Option ℚ :=
  match cs.span (· ≠ '.') with
  | (ip, []) =>
    if !ip.isEmpty && ip.all Char.isDigit then some (mkRat (digitsVal ip) 1)
    else none
  | (ip, _ :: fp) =>
    if !(ip.isEmpty && fp.isEmpty) && ip.all Char.isDigit
        && fp.all Char.isDigit then
      some (mkRat (digitsVal ip * 10 ^ fp.length + digitsVal fp) (10 ^ fp.length))
    else none

/-- Rust `str::parse::<f64>()` (decimal forms, exact rational value). -/
def parseRat (s : String) : Option ℚ :=
  match s.toList with
  | '+' :: rest => parseRatCore rest
  | '-' :: rest => (parseRatCore rest).map Neg.neg
  | l => parseRatCore l

/-- `s.trim_end_matches("m").trim()` as applied to the `height` tag. -/
def height_trim (s : String) : String :=
  let noM := (s.toList.reverse.dropWhile (· = 'm')).reverse
  ⟨(noM.dropWhile Char.isWhitespace).reverse.dropWhile Char.isWhitespace |>.reverse⟩

/-- Multiplication of exact rationals, written out so that it is
kernel-reducible (Batteries marks `Rat.mul` irreducible, which blocks
`decide`); `ratMul_eq_mul` below shows it agrees with `*`. -/
def ratMul (a b : ℚ) : ℚ :=
  mkRat (a.num * b.num) (a.den * b.den)

/-- Rust `as i32` on an `f64` value: truncation toward zero (saturation at
the i32 bounds is not modelled; no claim depends on it). -/
def f64toI32 (q : ℚ) : Int :=
  q.num.tdiv (q.den : Int)

/-- Inclusive integer range `a..=b` as a list (empty when `b < a`). -/
def intRangeIncl (a b : Int) : List Int :=
  (List.range (b - a + 1).toNat).map (fun i => a + Int.ofNat i)

/-- `(a..b).step_by(4)` on integers: `a, a+4, ...` strictly below `b`. -/
def stepRange4 (a b : Int) : List Int :=
  (List.range ((b - a + 3).fdiv 4).toNat).map (fun i => a + 4 * Int.ofNat i)

/-- Rounded division `round(a / b)` for `b > 0` (half rounds up). -/
def roundDiv (a b : Int) : Int :=
  (2 * a + b).fdiv (2 * b)

/-- Modelled from the spec: the straight-line rasterizer
(`bresenham.rs` is not under `src/`): the ordered grid points from the
first endpoint to the second, endpoints inclusive, one point per step of
the dominant axis. -/
def bresenham_line (x1 y1 z1 x2 y2 z2 : Int) : List (Int × Int × Int) :=
  let n : Nat := max (x2 - x1).natAbs (max (y2 - y1).natAbs (z2 - z1).natAbs)
  if n = 0 then [(x1, y1, z1)]
  else (List.range (n + 1)).map (fun i =>
    (x1 + roundDiv ((x2 - x1) * Int.ofNat i) (Int.ofNat n),
      y1 + roundDiv ((y2 - y1) * Int.ofNat i) (Int.ofNat n),
      z1 + roundDiv ((z2 - z1) * Int.ofNat i) (Int.ofNat n)))

/-- First-occurrence deduplication against an accumulated seen-set; models
the `processed_points: HashSet` insertion filter of the interior pass. -/
def dedupFirstAux : List (Int × Int) → List (Int × Int) → List (Int × Int)
  | _, [] => []
  | seen, p :: rest =>
    if p ∈ seen then dedupFirstAux seen rest
    else p :: dedupFirstAux (p :: seen) rest

/-- Keep the first occurrence of each point, in order. -/
def dedupFirst (l : List (Int × Int)) : List (Int × Int) :=
  dedupFirstAux [] l

/-- `building:min_level`: integer parse, falling back to 0 when the tag is
missing or unparseable (buildings.rs lines 26–30). -/
def minLevelTag (tags : Tags) : Int :=
  match tget tags "building:min_level" with
  | some s => (parseI32 s).getD 0
  | none => 0

/-- `start_level = base_y + (min_level * 4)` (buildings.rs line 33). -/
def start_level_of (base_y : Int) (tags : Tags) : Int :=
  base_y + minLevelTag tags * 4

/-- Default `building_height = ((6.0 * scale_factor) as i32).max(3)`
(buildings.rs line 87). -/
def defaultHeight (scale : ℚ) : Int :=
  max (f64toI32 (ratMul (mkRat 6 1) scale)) 3

/-- `building:levels` step of the height resolution (buildings.rs lines
103–112): parse, subtract `min_level`, and only when at least one story
remains overwrite the height with `((lev*4+2) as f64 * scale) as i32`
clamped to ≥ 3. -/
def height_levels (scale : ℚ) (tags : Tags) (prev : Int) : Int :=
  match (tget tags "building:levels").bind parseI32 with
  | some levels =>
    let lev := levels - minLevelTag tags
    if 1 ≤ lev then max (f64toI32 (ratMul (mkRat (lev * 4 + 2) 1) scale)) 3 else prev
  | none => prev

/-- `height` tag step of the height resolution (buildings.rs lines
114–119): strip trailing `m`, trim, parse as f64, overwrite with
`(height * scale) as i32` clamped to ≥ 3. -/
def height_height_tag (scale : ℚ) (tags : Tags) (prev : Int) : Int :=
  match (tget tags "height").bind (fun hs => parseRat (height_trim hs)) with
  | some h => max (f64toI32 (ratMul h scale)) 3
  | none => prev

/-- Relation-level step of the height resolution (buildings.rs lines
121–124): an externally supplied level count overwrites the height with
`((levels*4+2) as f64 * scale) as i32` clamped to ≥ 3. -/
def height_relation (scale : ℚ) (relation_levels : Option Int) (prev : Int) : Int :=
  match relation_levels with
  | some levels => max (f64toI32 (ratMul (mkRat (levels * 4 + 2) 1) scale)) 3
  | none => prev

/-- The building height after the four generic sources (default, levels
tag, height tag, relation override) have been applied in source order
(buildings.rs lines 87–124). -/
def resolveHeight (scale : ℚ) (tags : Tags) (relation_levels : Option Int) : Int :=
  height_relation scale relation_levels
    (height_height_tag scale tags (height_levels scale tags (defaultHeight scale)))

/-- Height forced for `building=garage` and plain `building=shed`:
`((2.0 * scale) as i32).max(3)` (buildings.rs lines 169 and 171). -/
def garage_height (scale : ℚ) : Int :=
  max (f64toI32 (ratMul (mkRat 2 1) scale)) 3

/-- `building=apartments` height override (buildings.rs lines 349–353):
replaced by `((15.0 * scale) as i32).max(3)` exactly when the current
height still *equals* the default value. -/
def apartments_height (scale : ℚ) (tags : Tags) (relation_levels : Option Int) : Int :=
  let bh := resolveHeight scale tags relation_levels
  if bh = defaultHeight scale then max (f64toI32 (ratMul (mkRat 15 1) scale)) 3 else bh

/-- `building=hospital` height override (buildings.rs lines 354–358):
replaced by `((23.0 * scale) as i32).max(3)` exactly when the current
height still *equals* the default value. -/
def hospital_height (scale : ℚ) (tags : Tags) (relation_levels : Option Int) : Int :=
  let bh := resolveHeight scale tags relation_levels
  if bh = defaultHeight scale then max (f64toI32 (ratMul (mkRat 23 1) scale)) 3 else bh

/-- The early-rejection test (buildings.rs lines 89–100): a tag whose
`parse::<i32>().unwrap_or(0)` is negative. -/
def neg_tag_check (tags : Tags) (key : String) : Bool :=
  match tget tags key with
  | some s => decide ((parseI32 s).getD 0 < 0)
  | none => false

/-- Rust `Iterator::min_by_key`: the element minimizing `f`; on ties the
first such element is returned. -/
def minByKeyFirst {α : Type} (f : α → Nat) : List α → Option α
  | [] => none
  | x :: xs =>
    match minByKeyFirst f xs with
    | none => some x
    | some b => if f b < f x then some b else some x

/-- `find_nearest_block_in_color_map` (buildings.rs lines 505–513): linear
scan minimizing `rgb_distance(entry_rgb, rgb)` over the catalog.  The
distance metric (`colors.rs`, not under `src/`) is a parameter. -/
def find_nearest_block_in_color_map (dist : RGBTuple → RGBTuple → Nat)
    (rgb : RGBTuple) (color_map : List (RGBTuple × Block)) : Option Block :=
  (minByKeyFirst (fun e => dist e.1 rgb) color_map).map Prod.snd

/-- The "single-house" building types that get a randomized roof color
(buildings.rs lines 73–74). -/
def house_types : List String :=
  ["yes", "house", "detached", "static_caravan", "semidetached_house",
   "bungalow", "manor", "villa"]

/-- Wall block resolution (buildings.rs lines 46–55). -/
def wall_block_of (d : Deps) (tags : Tags) : Block :=
  (((tget tags "building:colour").bind (fun c =>
      (d.colorParse c).map (fun rgb =>
        find_nearest_block_in_color_map d.rgbDist rgb d.wallColorMap))).join).getD
    d.wallPick

/-- Floor/roof block resolution (buildings.rs lines 56–81). -/
def floor_block_of (d : Deps) (tags : Tags) : Block :=
  (((tget tags "roof:colour").bind (fun c =>
      (d.colorParse c).map (fun rgb =>
        find_nearest_block_in_color_map d.rgbDist rgb d.floorColorMap))).join).getD
    (match (tget tags "building").or (tget tags "building:part") with
     | some building_type =>
       if building_type ∈ house_types then d.floorPick else LIGHT_GRAY_CONCRETE
     | none => LIGHT_GRAY_CONCRETE)

/-- `amenity=shelter` branch (buildings.rs lines 126–165).  The source
re-resolves `ground.min_level` inside the node loop and again before the
roof fill; the oracle is pure, so all three resolutions coincide and a
single match is taken here. -/
def shelter_writes (d : Deps) (g : Ground) (element : ProcessedWay) : List SetBlock :=
  let roof_area := d.floodFill (element.nodes.map (fun n => (n.x, n.z)))
  match g.min_level (element.nodes.map ProcessedNode.xz) with
  | none => []
  | some y =>
    element.nodes.flatMap (fun node =>
      (intRangeIncl 1 4).map (fun sy =>
        SetBlock.mk OAK_FENCE node.x (sy + y) node.z none none)
      ++ [SetBlock.mk STONE_BRICK_SLAB node.x (y + 5) node.z none none])
    ++ roof_area.map (fun p =>
        SetBlock.mk STONE_BRICK_SLAB p.1 (y + 5) p.2 none none)

/-- Covered-bicycle-parking `building=shed` branch (buildings.rs lines
172–211). -/
def shed_bike_writes (d : Deps) (g : Ground) (element : ProcessedWay) : List SetBlock :=
  let floor_area := d.floodFill (element.nodes.map (fun n => (n.x, n.z)))
  match g.min_level (element.nodes.map ProcessedNode.xz) with
  | none => []
  | some y =>
    floor_area.map (fun p => SetBlock.mk OAK_PLANKS p.1 y p.2 none none)
    ++ element.nodes.flatMap (fun node =>
        (intRangeIncl 1 4).map (fun dy =>
          SetBlock.mk OAK_FENCE node.x (y + dy) node.z none none)
        ++ [SetBlock.mk STONE_BLOCK_SLAB node.x (y + 5) node.z none none])
    ++ floor_area.map (fun p => SetBlock.mk STONE_BLOCK_SLAB p.1 (y + 5) p.2 none none)

/-- Parking-structure branch (buildings.rs lines 212–305), taking the
already-clamped `building_height` (`.max(16)` applied by the caller). -/
def parking_writes (d : Deps) (g : Ground) (element : ProcessedWay)
    (building_height : Int) : List SetBlock :=
  let floor_area := d.floodFill (element.nodes.map (fun n => (n.x, n.z)))
  match g.min_level (element.nodes.map ProcessedNode.xz) with
  | none => []
  | some ground_level =>
    (intRangeIncl 0 (building_height.tdiv 4)).flatMap (fun level =>
      let current_level := ground_level + level * 4
      element.nodes.flatMap (fun node =>
        (intRangeIncl (current_level + 1) (current_level + 4)).map (fun y =>
          SetBlock.mk STONE_BRICKS node.x y node.z none none))
      ++ floor_area.map (fun p =>
          SetBlock.mk (if level = 0 then SMOOTH_STONE else COBBLESTONE)
            p.1 current_level p.2 none none))
    ++ (intRangeIncl 0 (building_height.tdiv 4)).flatMap (fun level =>
      let current_level := ground_level + level * 4
      (element.nodes.zip element.nodes.tail).flatMap (fun pc =>
        (bresenham_line pc.1.x current_level pc.1.z pc.2.x current_level pc.2.z).flatMap
          (fun bp =>
            [SetBlock.mk SMOOTH_STONE bp.1 current_level bp.2.2
               (some [COBBLESTONE, COBBLESTONE_WALL]) none,
             SetBlock.mk STONE_BRICK_SLAB bp.1 (current_level + 2) bp.2.2 none none]
            ++ (if bp.1.tmod 2 = 0 then
                  [SetBlock.mk COBBLESTONE_WALL bp.1 (current_level + 1) bp.2.2 none none]
                else []))))

/-- Standalone `building=roof` branch (buildings.rs lines 306–348).  The
running `previous_node` is still `None` on entry, so the first node only
receives its lattice column. -/
def roof_writes (d : Deps) (g : Ground) (element : ProcessedWay) : List SetBlock :=
  match g.min_level (element.nodes.map ProcessedNode.xz) with
  | none => []
  | some ground_level =>
    let roof_height := ground_level + 5
    ((none :: element.nodes.map (fun n => some (n.x, n.z))).zip element.nodes).flatMap
      (fun pr =>
        (match pr.1 with
         | some prev =>
           (bresenham_line prev.1 roof_height prev.2 pr.2.x roof_height pr.2.z).map
             (fun bp => SetBlock.mk STONE_BRICK_SLAB bp.1 roof_height bp.2.2 none none)
         | none => [])
        ++ (intRangeIncl (ground_level + 1) (roof_height - 1)).map (fun y =>
            SetBlock.mk COBBLESTONE_WALL pr.2.x y pr.2.z none none))
    ++ (d.floodFill (element.nodes.map (fun n => (n.x, n.z)))).map (fun p =>
        SetBlock.mk STONE_BRICK_SLAB p.1 roof_height p.2 none none)

/-- The `level`-tag adjustment of a bridge elevation (buildings.rs lines
534–539 and 573–578): `(level * 3) + 1` when the tag parses, else 0. -/
def bridge_offset (tags : Tags) : Int :=
  match (tget tags "level").bind parseI32 with
  | some level => level * 3 + 1
  | none => 0

/-- Elevation of a bridge floor block over one column: the column's own
ground level plus the `level`-tag offset (buildings.rs lines 570–578). -/
def bridge_floor_level (g : Ground) (tags : Tags) (pt : XZPoint) : Int :=
  g.level pt + bridge_offset tags

/-- `generate_bridge` (buildings.rs lines 516–583): railings along the
node path at the current node's adjusted ground level, then a floor block
over every flood-filled column at that column's own adjusted ground
level. -/
def generate_bridge (d : Deps) (g : Ground) (element : ProcessedWay) : List SetBlock :=
  (element.nodes.zip element.nodes.tail).flatMap (fun pc =>
    let bridge_level := g.level (ProcessedNode.xz pc.2) + bridge_offset element.tags
    (bresenham_line pc.1.x bridge_level pc.1.z pc.2.x bridge_level pc.2.z).flatMap
      (fun bp =>
        [SetBlock.mk STONE_BRICKS bp.1 (bp.2.1 + 1) bp.2.2 none none,
         SetBlock.mk STONE_BRICKS bp.1 bp.2.1 bp.2.2 none none]))
  ++ (d.floodFill (element.nodes.map (fun n => (n.x, n.z)))).map (fun p =>
      SetBlock.mk STONE p.1 (bridge_floor_level g element.tags ⟨p.1, p.2⟩) p.2 none none)

/-- The generic wall/window/floor synthesis (buildings.rs lines 365–467):
edge tracing with windows and caps, then the deduplicated interior fill
with story ceilings and lighting.  `n0x` is `element.nodes[0].x`, read
only when an edge exists (so the list is nonempty and the fallback 0 is
never observed). -/
def generic_writes (d : Deps) (element : ProcessedWay) (args : Args)
    (start_level building_height : Int)
    (corner_block wall_block floor_block window_block : Block) : List SetBlock :=
  let n0x := ((element.nodes.head?).map ProcessedNode.x).getD 0
  let edge_points : List (Int × Int) :=
    (element.nodes.zip element.nodes.tail).flatMap (fun pc =>
      (bresenham_line pc.1.x start_level pc.1.z pc.2.x start_level pc.2.z).map
        (fun bp => (bp.1, bp.2.2)))
  let wall_writes := edge_points.flatMap (fun p =>
    (intRangeIncl (start_level + 1) (start_level + building_height)).map (fun h =>
      if n0x = p.1 ∧ n0x = p.2 then SetBlock.mk corner_block p.1 h p.2 none none
      else if start_level + 1 < h ∧ h.tmod 4 ≠ 0 ∧ (p.1 + p.2).tmod 6 < 3 then
        SetBlock.mk window_block p.1 h p.2 none none
      else SetBlock.mk wall_block p.1 h p.2 none none)
    ++ [SetBlock.mk COBBLESTONE p.1 (start_level + building_height + 1) p.2 none none]
    ++ (if args.winter then
          [SetBlock.mk SNOW_LAYER p.1 (start_level + building_height + 2) p.2 none none]
        else []))
  let corner_addup : Int × Int × Int :=
    edge_points.foldl (fun acc p => (acc.1 + p.1, acc.2.1 + p.2, acc.2.2 + 1)) (0, 0, 0)
  let interior_writes :=
    if corner_addup ≠ (0, 0, 0) then
      (dedupFirst (d.floodFill (element.nodes.map (fun n => (n.x, n.z))))).flatMap (fun p =>
        [SetBlock.mk floor_block p.1 start_level p.2 none none]
        ++ (if 4 < building_height then
              (stepRange4 (start_level + 2 + 4) (start_level + building_height)).map
                (fun h =>
                  if p.1.tmod 6 = 0 ∧ p.2.tmod 6 = 0 then
                    SetBlock.mk GLOWSTONE p.1 h p.2 none none
                  else SetBlock.mk floor_block p.1 h p.2 none none)
            else if p.1.tmod 6 = 0 ∧ p.2.tmod 6 = 0 then
              [SetBlock.mk GLOWSTONE p.1 (start_level + building_height) p.2 none none]
            else [])
        ++ [SetBlock.mk floor_block p.1 (start_level + building_height + 1) p.2 none none]
        ++ (if args.winter then
              [SetBlock.mk SNOW_LAYER p.1 (start_level + building_height + 2) p.2 none none]
            else []))
    else []
  wall_writes ++ interior_writes

/-- `generate_buildings` (buildings.rs lines 14–467).  The source resolves
the palette and the default height before the two negative-tag guards;
all of that is pure, so the guards are stated first here without changing
the emitted writes. -/
def generate_buildings (d : Deps) (g : Ground) (element : ProcessedWay)
    (args : Args) (relation_levels : Option Int) : List SetBlock :=
  match g.min_level (element.nodes.map ProcessedNode.xz) with
  | none => []
  | some base_y =>
    if neg_tag_check element.tags "layer" then []
    else if neg_tag_check element.tags "level" then []
    else
      let start_level := start_level_of base_y element.tags
      let corner_block := d.cornerPick
      let wall_block := wall_block_of d element.tags
      let floor_block := floor_block_of d element.tags
      let window_block := WHITE_STAINED_GLASS
      let scale_factor := args.scale
      let building_height := resolveHeight scale_factor element.tags relation_levels
      if tget element.tags "amenity" = some "shelter" then
        shelter_writes d g element
      else
        match tget element.tags "building" with
        | some building_type =>
          if building_type = "garage" then
            generic_writes d element args start_level (garage_height scale_factor)
              corner_block wall_block floor_block window_block
          else if building_type = "shed" then
            if (tget element.tags "bicycle_parking").isSome
                ∧ tget element.tags "covered" = some "yes" then
              shed_bike_writes d g element
            else
              generic_writes d element args start_level (garage_height scale_factor)
                corner_block wall_block floor_block window_block
          else if building_type = "parking"
              ∨ tget element.tags "parking" = some "multi-storey" then
            parking_writes d g element (max building_height 16)
          else if building_type = "roof" then
            roof_writes d g element
          else if building_type = "apartments" then
            generic_writes d element args start_level
              (apartments_height scale_factor element.tags relation_levels)
              corner_block wall_block floor_block window_block
          else if building_type = "hospital" then
            generic_writes d element args start_level
              (hospital_height scale_factor element.tags relation_levels)
              corner_block wall_block floor_block window_block
          else if building_type = "bridge" then
            generate_bridge d g element
          else
            generic_writes d element args start_level building_height
              corner_block wall_block floor_block window_block
        | none =>
          generic_writes d element args start_level building_height
            corner_block wall_block floor_block window_block

/-- `generate_building_from_relation` (buildings.rs lines 469–503): the
relation's `building:levels` (default 2) is passed to every `Outer`
member; the `Inner` handling is commented out in the source. -/
def generate_building_from_relation (d : Deps) (g : Ground)
    (relation : ProcessedRelation) (args : Args) : List SetBlock :=
  let relation_levels := ((tget relation.tags "building:levels").bind parseI32).getD 2
  relation.members.flatMap (fun member =>
    if member.role = ProcessedMemberRole.outer then
      generate_buildings d g member.way args (some relation_levels)
    else [])

/-- Door skip test (doors.rs lines 11–17): skip only when the `level` tag
is present, parses, and is nonzero. -/
def door_skip (tags : Tags) : Bool :=
  match tget tags "level" with
  | some s =>
    match parseI32 s with
    | some level => decide (level ≠ 0)
    | none => false
  | none => false

/-- `generate_doors` (doors.rs lines 7–43): the block writes and the
entity spawns, in source order. -/
def generate_doors (g : Ground) (element : ProcessedNode) :
    List SetBlock × List SpawnEntity :=
  if (tget element.tags "door").isSome || (tget element.tags "entrance").isSome then
    if door_skip element.tags then ([], [])
    else
      let x := element.x
      let z := element.z
      let ground_level := g.level ⟨x, z⟩
      ([SetBlock.mk GRAY_CONCRETE x ground_level z none none,
        SetBlock.mk DARK_OAK_DOOR_LOWER x (ground_level + 1) z none none,
        SetBlock.mk DARK_OAK_DOOR_UPPER x (ground_level + 2) z none none],
       [SpawnEntity.mk "pig" 100 64 100,
        SpawnEntity.mk "creeper" 105 64 95,
        SpawnEntity.mk "armor_stand" 100 64 102,
        SpawnEntity.mk "minecraft:pig" 100 64 100,
        SpawnEntity.mk "minecraft:creeper" 105 64 95,
        SpawnEntity.mk "minecraft:armor_stand" 100 64 102,
        SpawnEntity.mk "pig" x (ground_level + 2) z,
        SpawnEntity.mk "creeper" x (ground_level + 2) z,
        SpawnEntity.mk "armor_stand" x (ground_level + 2) z,
        SpawnEntity.mk "minecraft:pig" x (ground_level + 2) z,
        SpawnEntity.mk "minecraft:creeper" x (ground_level + 2) z,
        SpawnEntity.mk "minecraft:armor_stand" x (ground_level + 2) z])
  else ([], [])

/-- Collaborator instance with an empty interior fill. -/
def dEmpty : Deps :=
  ⟨fun _ => [], fun _ => none, fun _ _ => 0, Block.misc 0, Block.misc 1, Block.misc 2, [], []⟩

/-- Collaborator instance whose interior fill returns the single column (1, 1). -/
def dOne : Deps :=
  ⟨fun _ => [(1, 1)], fun _ => none, fun _ _ => 0, Block.misc 0, Block.misc 1, Block.misc 2, [], []⟩

/-- Collaborator instance whose interior fill returns the columns (0, 0) and (1, 0). -/
def dTwo : Deps :=
  ⟨fun _ => [(0, 0), (1, 0)], fun _ => none, fun _ _ => 0, Block.misc 0, Block.misc 1, Block.misc 2, [], []⟩

/-- Flat ground at elevation 0. -/
def gZero : Ground := ⟨fun _ => 0, fun _ => some 0⟩

/-- Ground whose per-column elevation is the column's x coordinate. -/
def gSlope : Ground := ⟨fun p => p.x, fun _ => some 0⟩

/-- Ground oracle that cannot resolve a minimum elevation. -/
def gNone : Ground := ⟨fun _ => 0, fun _ => none⟩

/-- Arguments with scale 1 and winter off. -/
def aOne : Args := ⟨mkRat 1 1, false⟩

/-- Two-node footprint tagged only `parking=multi-storey` (no `building` tag). -/
def wayPark : ProcessedWay := ⟨[⟨0, 0, []⟩, ⟨2, 0, []⟩], [("parking", "multi-storey")]⟩

/-- Two-node footprint tagged `building=parking`. -/
def wayParkB : ProcessedWay := ⟨[⟨0, 0, []⟩, ⟨2, 0, []⟩], [("building", "parking")]⟩

/-- One-node footprint tagged `amenity=shelter`. -/
def wayShelter : ProcessedWay := ⟨[⟨0, 0, []⟩], [("amenity", "shelter")]⟩

/-- One-node footprint with no tags. -/
def wayPlain : ProcessedWay := ⟨[⟨0, 0, []⟩], []⟩

/-- Footprint tagged `building=bridge` and `level=2` (nodes unused by the
floor pass, whose columns come from the interior fill). -/
def wayBridge : ProcessedWay := ⟨[], [("building", "bridge"), ("level", "2")]⟩

/-- Door node at column (7, 9). -/
def doorNode : ProcessedNode := ⟨7, 9, [("door", "yes")]⟩

/-- Tie-ignoring distance, for exercising first-minimum tie-breaking. -/
def rgbZero : RGBTuple → RGBTuple → Nat := fun _ _ => 0

/-- Two-entry color catalog whose entries tie under `rgbZero`. -/
def cmapEx : List (RGBTuple × Block) := [((0, 0, 0), Block.misc 5), ((0, 0, 1), Block.misc 6)]

example : dedupFirst [(1,2),(1,2),(3,4)] = [(1,2),(3,4)] := by decide
example : intRangeIncl 1 4 = [1,2,3,4] := by decide
example : stepRange4 6 10 = [6] := by decide
example : stepRange4 6 11 = [6, 10] := by decide
example : bresenham_line 0 0 0 2 0 0 = [(0,0,0),(1,0,0),(2,0,0)] := by decide
example : parseI32 "-3" = some (-3) := by decide
example : parseI32 "x" = none := by decide
example : parseRat "12.5" = some (mkRat 25 2) := by decide
example : height_trim "12m" = "12" := by decide
example : f64toI32 (mkRat 25 2) = 12 := by decide
example : f64toI32 (mkRat (-25) 2) = -12 := by decide

theorem ratMul_eq_mul (a b : ℚ) : ratMul a b = a * b := by
  rw [ratMul, Rat.mkRat_eq_div]
  push_cast
  rw [← div_mul_div_comm, Rat.num_div_den, Rat.num_div_den]

theorem mem_intRangeIncl {a b x : Int} : x ∈ intRangeIncl a b ↔ a ≤ x ∧ x ≤ b := by
  simp only [intRangeIncl, List.mem_map, List.mem_range, Int.ofNat_eq_coe]
  constructor
  · rintro ⟨i, hi, rfl⟩
    omega
  · rintro ⟨h1, h2⟩
    refine ⟨(x - a).toNat, ?_, ?_⟩
    · omega
    · omega

theorem minByKeyFirst_eq_none {α : Type} (f : α → Nat) (l : List α) :
    minByKeyFirst f l = none ↔ l = [] := by
  cases l with
  | nil => simp [minByKeyFirst]
  | cons x xs =>
    simp only [minByKeyFirst]
    cases minByKeyFirst f xs with
    | none => simp
    | some b =>
      constructor
      · intro h
        by_cases hb : f b < f x <;> simp [hb] at h
      · intro h
        cases h

theorem minByKeyFirst_spec {α : Type} (f : α → Nat) (l : List α) (hl : l ≠ []) :
    ∃ i e, l.get? i = some e ∧ minByKeyFirst f l = some e
      ∧ (∀ j e2, l.get? j = some e2 → f e ≤ f e2)
      ∧ (∀ j e2, j < i → l.get? j = some e2 → f e < f e2) := by
  induction l with
  | nil => exact absurd rfl hl
  | cons x xs ih =>
    rcases hmb : minByKeyFirst f xs with _ | b
    · have hxs : xs = [] := (minByKeyFirst_eq_none f xs).1 hmb
      subst hxs
      refine ⟨0, x, rfl, by simp [minByKeyFirst], ?_, ?_⟩
      · intro j e2 hj
        cases j with
        | zero =>
          rw [List.get?_cons_zero] at hj
          cases hj
          exact le_refl _
        | succ k => simp at hj
      · intro j e2 hjlt hj
        omega
    · have hxs : xs ≠ [] := by
        intro h
        subst h
        simp [minByKeyFirst] at hmb
      obtain ⟨i, e, hget, hmeq, hmin, hfirst⟩ := ih hxs
      have hb : b = e := by
        rw [hmb] at hmeq
        exact Option.some_inj.1 hmeq
      subst hb
      by_cases hlt : f b < f x
      · refine ⟨i + 1, b, by simpa using hget, by simp [minByKeyFirst, hmb, hlt], ?_, ?_⟩
        · intro j e2 hj
          cases j with
          | zero =>
            rw [List.get?_cons_zero] at hj
            cases hj
            exact le_of_lt hlt
          | succ k =>
            rw [List.get?_cons_succ] at hj
            exact hmin k e2 hj
        · intro j e2 hjlt hj
          cases j with
          | zero =>
            rw [List.get?_cons_zero] at hj
            cases hj
            exact hlt
          | succ k =>
            rw [List.get?_cons_succ] at hj
            exact hfirst k e2 (by omega) hj
      · refine ⟨0, x, rfl, by simp [minByKeyFirst, hmb, hlt], ?_, ?_⟩
        · intro j e2 hj
          cases j with
          | zero =>
            rw [List.get?_cons_zero] at hj
            cases hj
            exact le_refl _
          | succ k =>
            rw [List.get?_cons_succ] at hj
            exact le_trans (not_lt.1 hlt) (hmin k e2 hj)
        · intro j e2 hjlt hj
          omega

theorem flatMap_ite_eq_filter {α β : Type} (l : List α) (p : α → Prop)
    [DecidablePred p] (f : α → List β) :
    l.flatMap (fun a => if p a then f a else [])
      = (l.filter (fun a => decide (p a))).flatMap f := by
  induction l with
  | nil => rfl
  | cons x xs ih =>
    by_cases hx : p x <;> simp [List.filter_cons, hx, ih]

theorem shelter_writes_block (d : Deps) (g : Ground) (element : ProcessedWay) :
    ∀ w ∈ shelter_writes d g element,
      w.block = OAK_FENCE ∨ w.block = STONE_BRICK_SLAB := by
  intro w hw
  unfold shelter_writes at hw
  rcases hml : g.min_level (element.nodes.map ProcessedNode.xz) with _ | y
  · rw [hml] at hw
    cases hw
  · rw [hml] at hw
    rcases List.mem_append.1 hw with h | h
    · rcases List.mem_flatMap.1 h with ⟨node, _, hmem⟩
      rcases List.mem_append.1 hmem with h2 | h2
      · rcases List.mem_map.1 h2 with ⟨sy, _, rfl⟩
        left
        rfl
      · rcases List.mem_singleton.1 h2 with rfl
        right
        rfl
    · rcases List.mem_map.1 h with ⟨p, _, rfl⟩
      right
      rfl

theorem neg_tag_check_of_parse {tags : Tags} {key s : String} {n : Int}
    (hs : tget tags key = some s) (hn : parseI32 s = some n) (hneg : n < 0) :
    neg_tag_check tags key = true := by
  simp [neg_tag_check, hs, hn, hneg]

/-- C1: when the ground oracle cannot resolve a minimum elevation over the
footprint's columns, or the `layer` tag or the `level` tag parses to a
negative integer, `generate_buildings` issues zero voxel writes. -/
theorem C1_silent_skip (d : Deps) (g : Ground) (element : ProcessedWay)
    (args : Args) (relation_levels : Option Int)
    (h : g.min_level (element.nodes.map ProcessedNode.xz) = none
      ∨ (∃ s n, tget element.tags "layer" = some s ∧ parseI32 s = some n ∧ n < 0)
      ∨ (∃ s n, tget element.tags "level" = some s ∧ parseI32 s = some n ∧ n < 0)) :
    generate_buildings d g element args relation_levels = [] := by
  rcases h with h | h | h
  · unfold generate_buildings
    rw [h]
  · obtain ⟨s, n, hs, hn, hneg⟩ := h
    have hB := neg_tag_check_of_parse hs hn hneg
    unfold generate_buildings
    rcases hml : g.min_level (element.nodes.map ProcessedNode.xz) with _ | base_y
    · rfl
    · simp [hB]
  · obtain ⟨s, n, hs, hn, hneg⟩ := h
    have hB := neg_tag_check_of_parse hs hn hneg
    unfold generate_buildings
    rcases hml : g.min_level (element.nodes.map ProcessedNode.xz) with _ | base_y
    · rfl
    · by_cases hL : neg_tag_check element.tags "layer" = true
      · simp [hL]
      · simp [hL, hB]

/-- C1 witness: a footprint over unresolvable ground produces no writes. -/
theorem C1_silent_skip_witness :
    generate_buildings dEmpty gNone wayPlain aOne none = [] :=
  C1_silent_skip dEmpty gNone wayPlain aOne none (Or.inl rfl)

/-- C2: for every scale factor, tag set (`building:levels` / `height`) and
relation level override, the resolved building height is at least 3 — and
so are the subtype-adjusted heights used further down the branch chain. -/
theorem C2_height_ge_three (scale : ℚ) (tags : Tags) (relation_levels : Option Int) :
    3 ≤ resolveHeight scale tags relation_levels
    ∧ 3 ≤ garage_height scale
    ∧ 3 ≤ apartments_height scale tags relation_levels
    ∧ 3 ≤ hospital_height scale tags relation_levels := by
  have h0 : 3 ≤ defaultHeight scale := le_max_right _ _
  have h1 : 3 ≤ height_levels scale tags (defaultHeight scale) := by
    unfold height_levels
    split
    · dsimp only
      split
      · exact le_max_right _ _
      · exact h0
    · exact h0
  have h2 : 3 ≤ height_height_tag scale tags (height_levels scale tags (defaultHeight scale)) := by
    unfold height_height_tag
    split
    · exact le_max_right _ _
    · exact h1
  have h3 : 3 ≤ resolveHeight scale tags relation_levels := by
    unfold resolveHeight height_relation
    split
    · exact le_max_right _ _
    · exact h2
  refine ⟨h3, le_max_right _ _, ?_, ?_⟩
  · unfold apartments_height
    dsimp only
    split
    · exact le_max_right _ _
    · exact h3
  · unfold hospital_height
    dsimp only
    split
    · exact le_max_right _ _
    · exact h3

/-- C3: the start elevation is the resolved base elevation plus 4 times
the minimum level, where the minimum level is the integer parse of the
`building:min_level` tag and defaults to 0 when that tag is missing or
unparseable. -/
theorem C3_start_level (base_y : Int) (tags : Tags) :
    start_level_of base_y tags
      = base_y + 4 * (((tget tags "building:min_level").bind parseI32).getD 0) := by
  unfold start_level_of minLevelTag
  rcases h : tget tags "building:min_level" with _ | s
  · simp
  · rcases hp : parseI32 s with _ | n
    · simp [hp]
    · simp [hp]
      ring

/-- C4 counterexample: with scale 1 and tags `building=apartments`,
`height=6`, the `height` tag is present and parses (so a non-default
source set the height — to 6, which coincides with the default value
max(3, trunc(6·1)) = 6), yet the apartments override still fires and
replaces the height by 15.  The source keys the override on the height
*value* equalling the default, not on whether a source set it. -/
theorem C4_counterexample :
    tget [("building", "apartments"), ("height", "6")] "height" = some "6"
    ∧ parseRat (height_trim "6") = some (mkRat 6 1)
    ∧ resolveHeight (mkRat 1 1) [("building", "apartments"), ("height", "6")] none = 6
    ∧ defaultHeight (mkRat 1 1) = 6
    ∧ apartments_height (mkRat 1 1) [("building", "apartments"), ("height", "6")] none = 15 := by
  refine ⟨by decide, by decide, by decide, by decide, by decide⟩

/-- C4 amended: the `building=apartments` (resp. `building=hospital`)
override to max(3, trunc(15·scale)) (resp. max(3, trunc(23·scale)))
applies if and only if the height resolved from the generic sources
*equals* the default value max(3, trunc(6·scale)); the check is by value,
so a `building:levels`/`height`/relation source that sets the height to
exactly the default value does not suppress the override. -/
theorem C4_amended (scale : ℚ) (tags : Tags) (relation_levels : Option Int) :
    apartments_height scale tags relation_levels
      = (if resolveHeight scale tags relation_levels = defaultHeight scale
          then max (f64toI32 (ratMul (mkRat 15 1) scale)) 3
          else resolveHeight scale tags relation_levels)
    ∧ hospital_height scale tags relation_levels
      = (if resolveHeight scale tags relation_levels = defaultHeight scale
          then max (f64toI32 (ratMul (mkRat 23 1) scale)) 3
          else resolveHeight scale tags relation_levels)
    ∧ resolveHeight scale [] none = defaultHeight scale
    ∧ apartments_height scale [] none = max (f64toI32 (ratMul (mkRat 15 1) scale)) 3
    ∧ hospital_height scale [] none = max (f64toI32 (ratMul (mkRat 23 1) scale)) 3 := by
  refine ⟨rfl, rfl, rfl, ?_, ?_⟩
  · unfold apartments_height
    dsimp only
    have hd : resolveHeight scale [] none = defaultHeight scale := rfl
    rw [if_pos hd]
  · unfold hospital_height
    dsimp only
    have hd : resolveHeight scale [] none = defaultHeight scale := rfl
    rw [if_pos hd]

/-- C7: a footprint tagged `amenity=shelter` only ever receives fence-post
and stone-brick-slab writes — in particular no window block and no wall
block — because the shelter branch returns before the generic wall/window
logic. -/
theorem C7_shelter_blocks (d : Deps) (g : Ground) (element : ProcessedWay)
    (args : Args) (relation_levels : Option Int)
    (h : tget element.tags "amenity" = some "shelter") :
    ∀ w ∈ generate_buildings d g element args relation_levels,
      w.block = OAK_FENCE ∨ w.block = STONE_BRICK_SLAB := by
  intro w hw
  unfold generate_buildings at hw
  rcases hml : g.min_level (element.nodes.map ProcessedNode.xz) with _ | base_y
  · rw [hml] at hw
    cases hw
  · rw [hml] at hw
    by_cases hL : neg_tag_check element.tags "layer" = true
    · simp [hL] at hw
    · by_cases hV : neg_tag_check element.tags "level" = true
      · simp [hL, hV] at hw
      · simp only [hL, hV, if_false, Bool.false_eq_true] at hw
        rw [if_pos h] at hw
        exact shelter_writes_block d g element w hw

/-- C7 witness: the shelter branch applied to a concrete one-node
footprint; the slab write at (0, 5, 0) is one of its writes. -/
theorem C7_shelter_blocks_witness :
    (SetBlock.mk STONE_BRICK_SLAB 0 5 0 none none).block = OAK_FENCE
    ∨ (SetBlock.mk STONE_BRICK_SLAB 0 5 0 none none).block = STONE_BRICK_SLAB :=
  C7_shelter_blocks dEmpty gZero wayShelter aOne none (by decide)
    (SetBlock.mk STONE_BRICK_SLAB 0 5 0 none none) (by decide)

/-- C6: in bridge synthesis every interior column's floor block is placed
at that column's own ground-oracle height plus the `level`-tag offset, so
two interior columns whose terrain heights differ receive floor blocks at
different absolute elevations even under the same `level` tag. -/
theorem C6_bridge_floor (d : Deps) (g : Ground) (element : ProcessedWay)
    (p1 p2 : Int × Int)
    (h1 : p1 ∈ d.floodFill (element.nodes.map (fun n => (n.x, n.z))))
    (h2 : p2 ∈ d.floodFill (element.nodes.map (fun n => (n.x, n.z))))
    (hne : g.level ⟨p1.1, p1.2⟩ ≠ g.level ⟨p2.1, p2.2⟩) :
    SetBlock.mk STONE p1.1 (bridge_floor_level g element.tags ⟨p1.1, p1.2⟩) p1.2 none none
      ∈ generate_bridge d g element
    ∧ SetBlock.mk STONE p2.1 (bridge_floor_level g element.tags ⟨p2.1, p2.2⟩) p2.2 none none
      ∈ generate_bridge d g element
    ∧ bridge_floor_level g element.tags ⟨p1.1, p1.2⟩
      ≠ bridge_floor_level g element.tags ⟨p2.1, p2.2⟩ := by
  unfold generate_bridge
  refine ⟨?_, ?_, ?_⟩
  · exact List.mem_append_right _ (List.mem_map.2 ⟨p1, h1, rfl⟩)
  · exact List.mem_append_right _ (List.mem_map.2 ⟨p2, h2, rfl⟩)
  · unfold bridge_floor_level
    intro he
    exact hne (by omega)

/-- C6 witness: interior columns (0, 0) and (1, 0) over sloped ground with
`level=2` receive floor blocks at elevations 7 and 8. -/
theorem C6_bridge_floor_witness :
    SetBlock.mk STONE 0 7 0 none none ∈ generate_bridge dTwo gSlope wayBridge
    ∧ SetBlock.mk STONE 1 8 0 none none ∈ generate_bridge dTwo gSlope wayBridge := by
  have h := C6_bridge_floor dTwo gSlope wayBridge (0, 0) (1, 0)
    (by decide) (by decide) (by decide)
  exact ⟨h.1, h.2.1⟩

/-- C5 counterexample: a footprint tagged only `parking=multi-storey`
(with no `building` tag) never reaches the parking branch — the branch is
nested inside the `building`-tag dispatch — so the generic wall/window
synthesis runs instead: a window block is written at (1, 2, 0), and the
emitted writes are not those of the parking branch. -/
theorem C5_counterexample :
    SetBlock.mk WHITE_STAINED_GLASS 1 2 0 none none
      ∈ generate_buildings dEmpty gZero wayPark aOne none
    ∧ generate_buildings dEmpty gZero wayPark aOne none
      ≠ parking_writes dEmpty gZero wayPark
          (max (resolveHeight aOne.scale wayPark.tags none) 16) := by
  refine ⟨by decide, by decide⟩

theorem parking_floor_mem (d : Deps) (g : Ground) (element : ProcessedWay)
    (building_height gl lvl : Int) (p : Int × Int)
    (hm : g.min_level (element.nodes.map ProcessedNode.xz) = some gl)
    (hp : p ∈ d.floodFill (element.nodes.map (fun n => (n.x, n.z))))
    (h0 : 0 ≤ lvl) (h1 : lvl ≤ building_height.tdiv 4) :
    SetBlock.mk (if lvl = 0 then SMOOTH_STONE else COBBLESTONE)
        p.1 (gl + lvl * 4) p.2 none none
      ∈ parking_writes d g element building_height := by
  unfold parking_writes
  rw [hm]
  refine List.mem_append_left _ (List.mem_flatMap.2 ⟨lvl, mem_intRangeIncl.2 ⟨h0, h1⟩, ?_⟩)
  exact List.mem_append_right _ (List.mem_map.2 ⟨p, hp, rfl⟩)

/-- C5 amended: the parking branch is reached only through the
`building`-tag dispatch — the footprint must carry a `building` tag that
is neither `garage` nor `shed`, and either that tag is `parking` or the
`parking` tag is `multi-storey`; `amenity=shelter` takes precedence, and
the global skips (unresolvable ground, negative layer/level) still apply.
When reached, the effective height is clamped to ≥ 16, the branch's
writes replace the generic synthesis entirely, and a floor-fill write is
produced over every interior column at every 4-unit story boundary from
the ground level up to `height / 4` stories. -/
theorem C5_parking_amended (d : Deps) (g : Ground) (element : ProcessedWay)
    (args : Args) (relation_levels : Option Int) (building_type : String) (gl : Int)
    (hb : tget element.tags "building" = some building_type)
    (hg : building_type ≠ "garage")
    (hs : building_type ≠ "shed")
    (hp : building_type = "parking" ∨ tget element.tags "parking" = some "multi-storey")
    (ha : ¬ tget element.tags "amenity" = some "shelter")
    (hm : g.min_level (element.nodes.map ProcessedNode.xz) = some gl)
    (hlay : neg_tag_check element.tags "layer" = false)
    (hlev : neg_tag_check element.tags "level" = false) :
    generate_buildings d g element args relation_levels
      = parking_writes d g element
          (max (resolveHeight args.scale element.tags relation_levels) 16)
    ∧ 16 ≤ max (resolveHeight args.scale element.tags relation_levels) 16
    ∧ ∀ p ∈ d.floodFill (element.nodes.map (fun n => (n.x, n.z))), ∀ lvl : Int,
        0 ≤ lvl →
        lvl ≤ (max (resolveHeight args.scale element.tags relation_levels) 16).tdiv 4 →
        SetBlock.mk (if lvl = 0 then SMOOTH_STONE else COBBLESTONE)
            p.1 (gl + lvl * 4) p.2 none none
          ∈ generate_buildings d g element args relation_levels := by
  have heq : generate_buildings d g element args relation_levels
      = parking_writes d g element
          (max (resolveHeight args.scale element.tags relation_levels) 16) := by
    unfold generate_buildings
    rw [hm]
    simp only [hlay, hlev, Bool.false_eq_true, if_false]
    rw [if_neg ha, hb]
    dsimp only
    rw [if_neg hg, if_neg hs, if_pos hp]
  refine ⟨heq, le_max_right _ _, ?_⟩
  intro p hp0 lvl h0 h1
  rw [heq]
  exact parking_floor_mem d g element _ gl lvl p hm hp0 h0 h1

/-- C5 witness: a concrete `building=parking` footprint over flat ground
reduces to the parking branch with height 16. -/
theorem C5_parking_amended_witness :
    generate_buildings dOne gZero wayParkB aOne none
      = parking_writes dOne gZero wayParkB
          (max (resolveHeight aOne.scale wayParkB.tags none) 16) :=
  (C5_parking_amended dOne gZero wayParkB aOne none "parking" 0 (by decide) (by decide)
    (by decide) (Or.inl rfl) (by decide) rfl rfl rfl).1

/-- C8: synthesis from a relation resolves a single level count from the
relation's `building:levels` tag (default 2 when absent or unparseable),
invokes footprint synthesis exactly for the members with role `Outer`
(each receiving that level count as the external override), and the
override determines the resolved height regardless of the member's own
`building:levels`/`height` tags. -/
theorem C8_relation_delegation (d : Deps) (g : Ground)
    (relation : ProcessedRelation) (args : Args) :
    generate_building_from_relation d g relation args
      = (relation.members.filter
            (fun m => decide (m.role = ProcessedMemberRole.outer))).flatMap
          (fun m => generate_buildings d g m.way args
            (some (((tget relation.tags "building:levels").bind parseI32).getD 2)))
    ∧ (∀ (scale : ℚ) (tags : Tags) (l : Int),
        resolveHeight scale tags (some l)
          = max (f64toI32 (ratMul (mkRat (l * 4 + 2) 1) scale)) 3) := by
  constructor
  · unfold generate_building_from_relation
    exact flatMap_ite_eq_filter relation.members
      (fun m => m.role = ProcessedMemberRole.outer) _
  · intro scale tags l
    rfl

/-- C9: nearest-color resolution is a linear scan returning the block of a
catalog entry whose distance to the requested color is minimal, and on
ties the earliest such entry wins (every strictly earlier entry has
strictly larger distance); as a plain function it is deterministic in the
input color for a fixed catalog. -/
theorem C9_nearest_color (dist : RGBTuple → RGBTuple → Nat) (rgb : RGBTuple)
    (color_map : List (RGBTuple × Block)) (hm : color_map ≠ []) :
    ∃ i entry, color_map.get? i = some entry
      ∧ find_nearest_block_in_color_map dist rgb color_map = some entry.2
      ∧ (∀ j e2, color_map.get? j = some e2 → dist entry.1 rgb ≤ dist e2.1 rgb)
      ∧ (∀ j e2, j < i → color_map.get? j = some e2 → dist entry.1 rgb < dist e2.1 rgb) := by
  obtain ⟨i, e, hget, hmeq, hmin, hfirst⟩ :=
    minByKeyFirst_spec (fun e => dist e.1 rgb) color_map hm
  exact ⟨i, e, hget, by simp [find_nearest_block_in_color_map, hmeq], hmin, hfirst⟩

/-- C9 witness: on a two-entry catalog whose entries tie under a constant
distance, the scan returns the first entry's block. -/
theorem C9_nearest_color_witness :
    ∃ i entry, cmapEx.get? i = some entry
      ∧ find_nearest_block_in_color_map rgbZero (0, 0, 0) cmapEx = some entry.2
      ∧ (∀ j e2, cmapEx.get? j = some e2 →
          rgbZero entry.1 (0, 0, 0) ≤ rgbZero e2.1 (0, 0, 0))
      ∧ (∀ j e2, j < i → cmapEx.get? j = some e2 →
          rgbZero entry.1 (0, 0, 0) < rgbZero e2.1 (0, 0, 0)) :=
  C9_nearest_color rgbZero (0, 0, 0) cmapEx (by decide)

/-- C10: a door/entrance node that is not skipped (its `level` tag absent,
unparseable, or parsing to 0) produces exactly three block writes at its
own column — ground, lower door half, upper door half — and twelve entity
spawns: six at the fixed coordinates (100,64,100), (105,64,95),
(100,64,102) independent of the door, and six at the door's column at
ground+2. -/
theorem C10_doors (g : Ground) (element : ProcessedNode)
    (hd : (tget element.tags "door").isSome = true
      ∨ (tget element.tags "entrance").isSome = true)
    (hl : ∀ s l, tget element.tags "level" = some s → parseI32 s = some l → l = 0) :
    generate_doors g element
      = ([SetBlock.mk GRAY_CONCRETE element.x (g.level ⟨element.x, element.z⟩)
            element.z none none,
          SetBlock.mk DARK_OAK_DOOR_LOWER element.x (g.level ⟨element.x, element.z⟩ + 1)
            element.z none none,
          SetBlock.mk DARK_OAK_DOOR_UPPER element.x (g.level ⟨element.x, element.z⟩ + 2)
            element.z none none],
         [SpawnEntity.mk "pig" 100 64 100,
          SpawnEntity.mk "creeper" 105 64 95,
          SpawnEntity.mk "armor_stand" 100 64 102,
          SpawnEntity.mk "minecraft:pig" 100 64 100,
          SpawnEntity.mk "minecraft:creeper" 105 64 95,
          SpawnEntity.mk "minecraft:armor_stand" 100 64 102,
          SpawnEntity.mk "pig" element.x (g.level ⟨element.x, element.z⟩ + 2) element.z,
          SpawnEntity.mk "creeper" element.x (g.level ⟨element.x, element.z⟩ + 2) element.z,
          SpawnEntity.mk "armor_stand" element.x
            (g.level ⟨element.x, element.z⟩ + 2) element.z,
          SpawnEntity.mk "minecraft:pig" element.x
            (g.level ⟨element.x, element.z⟩ + 2) element.z,
          SpawnEntity.mk "minecraft:creeper" element.x
            (g.level ⟨element.x, element.z⟩ + 2) element.z,
          SpawnEntity.mk "minecraft:armor_stand" element.x
            (g.level ⟨element.x, element.z⟩ + 2) element.z]) := by
  have hskip : door_skip element.tags = false := by
    unfold door_skip
    rcases hls : tget element.tags "level" with _ | s
    · rfl
    · dsimp only
      rcases hps : parseI32 s with _ | l
      · simp [hps]
      · have hz := hl s l hls hps
        simp [hps, hz]
  have hcond : ((tget element.tags "door").isSome
      || (tget element.tags "entrance").isSome) = true := by
    rcases hd with h | h <;> simp [h]
  unfold generate_doors
  rw [if_pos hcond, if_neg (by simp [hskip])]

/-- C10 witness: the door node at (7, 9) over flat ground. -/
theorem C10_doors_witness :
    generate_doors gZero doorNode
      = ([SetBlock.mk GRAY_CONCRETE 7 0 9 none none,
          SetBlock.mk DARK_OAK_DOOR_LOWER 7 1 9 none none,
          SetBlock.mk DARK_OAK_DOOR_UPPER 7 2 9 none none],
         [SpawnEntity.mk "pig" 100 64 100,
          SpawnEntity.mk "creeper" 105 64 95,
          SpawnEntity.mk "armor_stand" 100 64 102,
          SpawnEntity.mk "minecraft:pig" 100 64 100,
          SpawnEntity.mk "minecraft:creeper" 105 64 95,
          SpawnEntity.mk "minecraft:armor_stand" 100 64 102,
          SpawnEntity.mk "pig" 7 2 9,
          SpawnEntity.mk "creeper" 7 2 9,
          SpawnEntity.mk "armor_stand" 7 2 9,
          SpawnEntity.mk "minecraft:pig" 7 2 9,
          SpawnEntity.mk "minecraft:creeper" 7 2 9,
          SpawnEntity.mk "minecraft:armor_stand" 7 2 9]) := by
  have h := C10_doors gZero doorNode (Or.inl (by decide))
    (fun s l hs hp => by
      rw [show tget doorNode.tags "level" = none from by decide] at hs
      cases hs)
  exact h
